import Mathlib

/-!
Verification of the hunter gateway (src/hunter_api.py, src/main.py) against its
natural-language specification.  The Python code is shallowly embedded: parsed
JSON documents become the inductive type JValue, the aiohttp transport becomes
an explicit Transport value supplied to each request, and Python exceptions
become the exn constructor of PyResult carrying the exception class name and
its message.
-/

/-- Parsed JSON documents / Python objects obtained from JSON. Mirrors the
values that flow through the gateway: request bodies, query parameter values,
and upstream response bodies. Object keys are kept in insertion order, as
Python dicts do. -/
inductive JValue where
  | null
  | bool (b : Bool)
  | num (n : Int)
  | str (s : String)
  | arr (xs : List JValue)
  | obj (kvs : List (String × JValue))

/-- Python truthiness of a JSON-derived value, as used by the source's
bare if tests (hunter_api.py lines 78-84, 119). -/
def JValue.truthy : JValue → Bool
  | .null => false
  | .bool b => b
  | .num n => n != 0
  | .str s => s != ""
  | .arr xs => !xs.isEmpty
  | .obj kvs => !kvs.isEmpty

mutual
/-- Python repr() of a JSON-derived value, used to model how an f-string
renders a params dict in the debug log line (hunter_api.py line 47). -/
def JValue.pyRepr : JValue → String
  | .null => "None"
  | .bool true => "True"
  | .bool false => "False"
  | .num n => toString n
  | .str s => "'" ++ s ++ "'"
  | .arr xs => "[" ++ pyReprList xs ++ "]"
  | .obj kvs => "\x7b" ++ pyReprEntries kvs ++ "\x7d"

/-- Comma-separated repr of list elements. -/
def pyReprList : List JValue → String
  | [] => ""
  | [x] => JValue.pyRepr x
  | x :: xs => JValue.pyRepr x ++ ", " ++ pyReprList xs

/-- Comma-separated repr of dict entries. -/
def pyReprEntries : List (String × JValue) → String
  | [] => ""
  | [(k, v)] => "'" ++ k ++ "': " ++ JValue.pyRepr v
  | (k, v) :: kvs => "'" ++ k ++ "': " ++ JValue.pyRepr v ++ ", " ++ pyReprEntries kvs
end

/-- Python str() of a JSON-derived value, as an f-string interpolation
renders it. Strings render without quotes; everything else as repr. -/
def JValue.pyStr : JValue → String
  | .str s => s
  | v => v.pyRepr

/-- Python str() applied to an optional value, where none stands for
Python's None (rendered "None" by an f-string). -/
def pyStrOpt : Option JValue → String
  | none => "None"
  | some v => v.pyStr

/-- Escaping applied to a string by json.dumps. The characters the gateway's
payloads actually contain need no escaping; backslash, quote and the common
control characters are covered (non-ASCII escaping is not modelled). -/
def jsonEscapeChar (c : Char) : String :=
  if c = '\\' then "\\\\"
  else if c = '"' then "\\\""
  else if c = '\n' then "\\n"
  else if c = '\t' then "\\t"
  else if c = '\r' then "\\r"
  else String.singleton c

/-- Escape a whole string for JSON output. -/
def jsonEscape (s : String) : String :=
  String.join (s.toList.map jsonEscapeChar)

/-- Indentation prefix used by json.dumps(..., indent=2) at nesting depth
lvl. -/
def jsonPad (lvl : Nat) : String :=
  String.join (List.replicate lvl "  ")

mutual
/-- Model of json.dumps(v, indent=2) at nesting depth lvl, as used to build
the text block of a tool-call response (main.py lines 165, 169, 175). -/
def dumpsAt : Nat → JValue → String
  | _, .null => "null"
  | _, .bool true => "true"
  | _, .bool false => "false"
  | _, .num n => toString n
  | _, .str s => "\"" ++ jsonEscape s ++ "\""
  | _, .arr [] => "[]"
  | lvl, .arr (x :: xs) =>
      "[\n" ++ dumpsArrItems (lvl + 1) x xs ++ "\n" ++ jsonPad lvl ++ "]"
  | _, .obj [] => "\x7b\x7d"
  | lvl, .obj (kv :: kvs) =>
      "\x7b\n" ++ dumpsObjItems (lvl + 1) kv kvs ++ "\n" ++ jsonPad lvl ++ "\x7d"
termination_by _ v => sizeOf v

/-- Comma-and-newline separated array items, each indented. -/
def dumpsArrItems : Nat → JValue → List JValue → String
  | lvl, x, [] => jsonPad lvl ++ dumpsAt lvl x
  | lvl, x, y :: ys => jsonPad lvl ++ dumpsAt lvl x ++ ",\n" ++ dumpsArrItems lvl y ys
termination_by _ x xs => sizeOf x + sizeOf xs

/-- Comma-and-newline separated object entries, each indented. -/
def dumpsObjItems : Nat → String × JValue → List (String × JValue) → String
  | lvl, (k, v), [] => jsonPad lvl ++ "\"" ++ jsonEscape k ++ "\": " ++ dumpsAt lvl v
  | lvl, (k, v), kv :: kvs =>
      jsonPad lvl ++ "\"" ++ jsonEscape k ++ "\": " ++ dumpsAt lvl v ++ ",\n"
        ++ dumpsObjItems lvl kv kvs
termination_by _ kv kvs => sizeOf kv + sizeOf kvs
end

/-- Model of json.dumps(v, indent=2) as called by the gateway. -/
def dumps (v : JValue) : String := dumpsAt 0 v

/-- Outcome of running a piece of Python code: a value, or an uncaught
exception carrying its class name and its str() message. The uniform error
of the Upstream Client's error-mapping contract is exn "ValueError" msg
(hunter_api.py lines 56, 59). -/
inductive PyResult (α : Type) where
  | ok (val : α)
  | exn (cls : String) (msg : String)

/-- What the transport handed back for an outbound call: the final HTTP
response, with body = some v when the body was JSON (application/json
content type, parseable) and none otherwise; statusMessage is the
transport-level status message (aiohttp's ClientResponseError.message). -/
structure UpstreamResponse where
  status : Nat
  body : Option JValue
  statusMessage : String

/-- Behaviour of the transport for one outbound call: either an HTTP
response was obtained, or a lower-level transport failure (DNS error,
connection refused, timeout) occurred, raising an aiohttp.ClientError whose
str() is msg. -/
inductive Transport where
  | response (r : UpstreamResponse)
  | clientError (msg : String)

/-- One outbound HTTP call as the Upstream Client issues it: method, full
URL, and the query parameters in insertion order. -/
structure OutboundCall where
  method : String
  url : String
  params : List (String × JValue)

/-- Everything observable about one Upstream Client request: the outbound
call that was made, the log lines written, and the Python-level result. -/
structure RequestTrace where
  call : OutboundCall
  logs : List String
  result : PyResult JValue

namespace HunterAPI

/-- Fixed base address of the upstream API (hunter_api.py line 11). -/
def BASE_URL : String := "https://api.hunter.io/v2"

/-- Model of the subscript-and-get chain on the error body
(hunter_api.py line 56):
error_data.get('errors', [\x7b'details': e.message\x7d])[0].get('details')
rendered through the f-string. Returns the message string, or the uncaught
exception the chain raises. fallback is e.message, the transport status
message. -/
def errorDetails (errorData : JValue) (fallback : String) : PyResult String :=
  match errorData with
  | .obj kvs =>
    match (kvs.lookup "errors").getD (.arr [.obj [("details", .str fallback)]]) with
    | .arr [] => .exn "IndexError" "list index out of range"
    | .arr (first :: _) =>
      match first with
      | .obj entry => .ok (pyStrOpt (entry.lookup "details"))
      | .str s =>
          if s = "" then .exn "IndexError" "string index out of range"
          else .exn "AttributeError" "'str' object has no attribute 'get'"
      | _ => .exn "TypeError" "object is not subscriptable"
    | .str "" => .exn "IndexError" "string index out of range"
    | .str _ => .exn "AttributeError" "'str' object has no attribute 'get'"
    | _ => .exn "TypeError" "object is not subscriptable"
  | _ => .exn "AttributeError" "object has no attribute 'get'"

/-- Message of the ContentTypeError that response.json() raises when a
non-error response does not carry a JSON content type. -/
def contentTypeMessage : String :=
  "Attempt to decode JSON with unexpected mimetype"

/-- Shallow embedding of HunterAPI._request (hunter_api.py lines 27-59).
The api_key is appended to the params dict (line 44), the debug log line is
written with the full params (line 47), and the call is issued.
raise_for_status raises ClientResponseError for status >= 400; its handler
re-reads the body when the content type is JSON and builds the uniform
ValueError, logging the error first (lines 53-56). A transport-level
ClientError becomes the uniform ValueError with the transport's message
(lines 57-59). A non-error response without a JSON body makes
response.json() raise ContentTypeError (a ClientResponseError), which the
same handler turns into the uniform error with that exception's message. -/
def hrequest (apiKey : String) (method : String) (endpoint : String)
    (params : List (String × JValue)) (t : Transport) : RequestTrace :=
  let fullParams := params ++ [("api_key", .str apiKey)]
  let url := BASE_URL ++ "/" ++ endpoint
  let debugLog :=
    "Making " ++ method ++ " request to " ++ url ++ " with params "
      ++ JValue.pyRepr (.obj fullParams)
  let call : OutboundCall := ⟨method, url, fullParams⟩
  match t with
  | .clientError m =>
      ⟨call, [debugLog, "Request error: " ++ m], .exn "ValueError" ("Request error: " ++ m)⟩
  | .response r =>
      if 400 ≤ r.status then
        let errLog := "API error: " ++ toString r.status ++ " - " ++ r.statusMessage
        let errorData : JValue :=
          match r.body with
          | some j => j
          | none => .obj [("error", .str r.statusMessage)]
        match errorDetails errorData r.statusMessage with
        | .ok details =>
            ⟨call, [debugLog, errLog], .exn "ValueError" ("Hunter API error: " ++ details)⟩
        | .exn cls m => ⟨call, [debugLog, errLog], .exn cls m⟩
      else
        match r.body with
        | some j => ⟨call, [debugLog], .ok j⟩
        | none =>
            ⟨call, [debugLog, "API error: 0 - " ++ contentTypeMessage],
              .exn "ValueError" ("Hunter API error: " ++ contentTypeMessage)⟩

/-- Model of response.get("data", \x7b\x7d) applied to a successful request
result (hunter_api.py lines 88, 101, 123). On a non-dict JSON body the
attribute access raises. Errors pass through unchanged. -/
def getData : PyResult JValue → PyResult JValue
  | .ok (.obj kvs) => .ok ((kvs.lookup "data").getD (.obj []))
  | .ok _ => .exn "AttributeError" "object has no attribute 'get'"
  | .exn cls m => .exn cls m

/-- Model of the pattern: if v: params[name] = v, where v is an optional
argument (None when not supplied). Mirrors hunter_api.py lines 78-85 and
119-120. -/
def addIf (params : List (String × JValue)) (name : String) (v : Option JValue) :
    List (String × JValue) :=
  match v with
  | some x => if x.truthy then params ++ [(name, x)] else params
  | none => params

/-- Shallow embedding of HunterAPI.find_email (hunter_api.py lines 61-88).
Optional arguments are none when the caller did not supply them. -/
def find_email (apiKey : String) (domain : JValue)
    (first_name last_name company full_name : Option JValue) (t : Transport) :
    RequestTrace :=
  let params := [("domain", domain)]
  let params := addIf params "first_name" first_name
  let params := addIf params "last_name" last_name
  let params := addIf params "company" company
  let params := addIf params "full_name" full_name
  let tr := hrequest apiKey "GET" "email-finder" params t
  { tr with result := getData tr.result }

/-- Shallow embedding of HunterAPI.verify_email (hunter_api.py lines
90-101). -/
def verify_email (apiKey : String) (email : JValue) (t : Transport) : RequestTrace :=
  let tr := hrequest apiKey "GET" "email-verifier" [("email", email)] t
  { tr with result := getData tr.result }

/-- Shallow embedding of HunterAPI.domain_search (hunter_api.py lines
103-123). limit = none models leaving the parameter unspecified, which
Python's default binds to 10; ptype = none models type=None. -/
def domain_search (apiKey : String) (domain : JValue) (limit : Option JValue)
    (ptype : Option JValue) (t : Transport) : RequestTrace :=
  let lim := limit.getD (.num 10)
  let params := [("domain", domain), ("limit", lim)]
  let params := addIf params "type" ptype
  let tr := hrequest apiKey "GET" "domain-search" params t
  { tr with result := getData tr.result }

end HunterAPI

namespace Main

/-- Names of the registered tools, in registry order (main.py TOOLS,
lines 74-136). -/
def toolNames : List String := ["email_finder", "email_verifier", "domain_search"]

/-- Keyword parameters accepted by HunterAPI.find_email, in signature order
(hunter_api.py lines 61-63); the first is the only one without a default. -/
def findEmailAllowedKeys : List String :=
  ["domain", "first_name", "last_name", "company", "full_name"]

/-- The email_finder tool's required clause (main.py line 87). -/
def emailFinderRequiredOk (kvs : List (String × JValue)) : Bool :=
  (kvs.lookup "domain").isSome

/-- The email_finder tool's anyOf clause (main.py lines 88-91): either both
first_name and last_name, or full_name, must be present. -/
def emailFinderAnyOfOk (kvs : List (String × JValue)) : Bool :=
  ((kvs.lookup "first_name").isSome && (kvs.lookup "last_name").isSome)
    || (kvs.lookup "full_name").isSome

/-- Validity of an arguments mapping against the email_finder
ToolDescriptor input schema (main.py lines 78-92). -/
def emailFinderSchemaOk (kvs : List (String × JValue)) : Bool :=
  emailFinderRequiredOk kvs && emailFinderAnyOfOk kvs

/-- What the POST /tools/call endpoint does with one request: either an
HTTP response is produced (recording the outbound calls made while
handling it), or an exception escapes the endpoint handler uncaught. -/
inductive EndpointOutcome where
  | response (calls : List OutboundCall) (status : Nat) (body : JValue)
  | raised (cls : String) (msg : String)

/-- The success envelope built by call_tool (main.py lines 165, 169, 175):
content is a single text block whose text is the pretty-printed JSON of
the upstream data. -/
def contentEnvelope (result : JValue) : JValue :=
  .obj [("content", .arr [.obj [("type", .str "text"), ("text", .str (dumps result))]])]

/-- How call_tool finishes a dispatched Upstream Client operation: a
success becomes the content envelope, and any exception is caught by the
except clause (main.py lines 180-182) and becomes HTTP 500 with
\x7b"error": str(e)\x7d. -/
def finishTool (tr : RequestTrace) : EndpointOutcome :=
  match tr.result with
  | .ok data => .response [tr.call] 200 (contentEnvelope data)
  | .exn _ m => .response [tr.call] 500 (.obj [("error", .str m)])

/-- Dispatch on the tool name (main.py lines 162-178), given the already
extracted name and arguments values. Spreading arguments into find_email
fails with TypeError on an unexpected key or a missing domain;
arguments["email"] and arguments["domain"] fail with KeyError when absent;
a non-mapping arguments value fails inside the try block. All of those are
caught by the except clause and become HTTP 500 envelopes. An unknown name
gets the 404 envelope of line 178. -/
def dispatch (apiKey : String) (name : Option JValue) (arguments : JValue)
    (t : Transport) : EndpointOutcome :=
  match name with
  | some (.str s) =>
    if s = "email_finder" then
    match arguments with
    | .obj kvs =>
      match (kvs.map Prod.fst).find? (fun k => !(findEmailAllowedKeys.contains k)) with
      | some k =>
          .response [] 500 (.obj [("error",
            .str ("find_email() got an unexpected keyword argument '" ++ k ++ "'"))])
      | none =>
        match kvs.lookup "domain" with
        | none =>
            .response [] 500 (.obj [("error",
              .str "find_email() missing 1 required positional argument: 'domain'")])
        | some d =>
            finishTool (HunterAPI.find_email apiKey d (kvs.lookup "first_name")
              (kvs.lookup "last_name") (kvs.lookup "company") (kvs.lookup "full_name") t)
    | _ =>
        .response [] 500 (.obj [("error",
          .str "hunter_api.HunterAPI.find_email() argument after ** must be a mapping")])
    else if s = "email_verifier" then
    match arguments with
    | .obj kvs =>
      match kvs.lookup "email" with
      | some email => finishTool (HunterAPI.verify_email apiKey email t)
      | none => .response [] 500 (.obj [("error", .str "'email'")])
    | _ => .response [] 500 (.obj [("error", .str "subscript of a non-mapping value")])
    else if s = "domain_search" then
    match arguments with
    | .obj kvs =>
      let lim := (kvs.lookup "limit").getD (.num 10)
      let email_type := kvs.lookup "type"
      match kvs.lookup "domain" with
      | some d => finishTool (HunterAPI.domain_search apiKey d (some lim) email_type t)
      | none => .response [] 500 (.obj [("error", .str "'domain'")])
    | _ =>
        .response [] 500 (.obj [("error",
          .str "'value' object has no attribute 'get'")])
    else .response [] 404 (.obj [("error", .str ("Unknown tool: " ++ s))])
  | other =>
      .response [] 404 (.obj [("error", .str ("Unknown tool: " ++ pyStrOpt other))])

/-- Shallow embedding of the POST /tools/call handler (main.py lines
153-182). rawBody = none models a request body that is not valid JSON:
await request.json() then raises before the try block is entered, so the
exception escapes the handler. A JSON body that is not an object makes
data.get("name") raise on line 157, likewise outside the try block.
Otherwise name and arguments are extracted (arguments defaulting to an
empty mapping, line 158) and the call is dispatched. -/
def call_tool (apiKey : String) (rawBody : Option JValue) (t : Transport) :
    EndpointOutcome :=
  match rawBody with
  | none => .raised "JSONDecodeError" "Expecting value: line 1 column 1 (char 0)"
  | some (.obj kvs) =>
      dispatch apiKey (kvs.lookup "name") ((kvs.lookup "arguments").getD (.obj [])) t
  | some _ => .raised "AttributeError" "object has no attribute 'get'"

/-- The outbound calls a /tools/call outcome made. -/
def callsOf : EndpointOutcome → List OutboundCall
  | .response calls _ _ => calls
  | .raised _ _ => []

/-- An outcome with the record of outbound calls erased: exactly what the
gateway's caller observes. -/
def observed : EndpointOutcome → EndpointOutcome
  | .response _ status body => .response [] status body
  | .raised cls m => .raised cls m

end Main

namespace Sse

/-- One step of the /sse event_generator (main.py lines 233-260): either it
yields a named event or it awaits asyncio.sleep for the given number of
tenths of a second (0.1 s and 10 s become 1 and 100; integer tenths avoid
floating point). -/
inductive GenStep where
  | yieldEv (event : String)
  | sleepT (tenths : Nat)

/-- Step i of the event_generator body: the three handshake events each
followed by a 0.1 s sleep (lines 237-252), then the keep-alive loop which
sleeps 10 s before each ping (lines 256-260). -/
def genStep : Nat → GenStep
  | 0 => .yieldEv "connected"
  | 1 => .sleepT 1
  | 2 => .yieldEv "capabilities"
  | 3 => .sleepT 1
  | 4 => .yieldEv "initialization_complete"
  | 5 => .sleepT 1
  | n + 6 => if n % 2 = 0 then .sleepT 100 else .yieldEv "ping"

/-- The event sequence the specification promises: the three handshake
events in order, then pings forever. -/
def idealEvent : Nat → String
  | 0 => "connected"
  | 1 => "capabilities"
  | 2 => "initialization_complete"
  | _ + 3 => "ping"

/-- The first n events of the promised sequence. -/
def idealFirst (n : Nat) : List String := (List.range n).map idealEvent

/-- How many of the first k generator steps are yields. -/
def yieldCount (k : Nat) : Nat := if k ≤ 6 then (k + 1) / 2 else 3 + (k - 6) / 2

/-- Step index at which the generator emits its n-th event. -/
def eventIdx (n : Nat) : Nat := if n < 3 then 2 * n else 2 * n + 1

/-- Events the generator has emitted after its first k steps. -/
def emitted : Nat → List String
  | 0 => []
  | k + 1 =>
    emitted k ++
      match genStep k with
      | .yieldEv e => [e]
      | .sleepT _ => []

/-- Time, in tenths of a second, spent sleeping during the first k steps:
the instant at which step k runs. -/
def elapsed : Nat → Nat
  | 0 => 0
  | k + 1 =>
    elapsed k +
      match genStep k with
      | .yieldEv _ => 0
      | .sleepT d => d

/-- Which exception classes the generator body catches and swallows: the
except clauses of main.py lines 261-265 swallow CancelledError (logging
only) and re-raise anything else. -/
def generatorSwallows : String → Bool
  | "CancelledError" => true
  | _ => false

/-- Closing the SSE connection cancels the generator at its current await:
the events emitted so far stand, and the run reports an error exactly when
the CancelledError is not swallowed by the generator's except clause. -/
def cancelRun (k : Nat) : List String × Bool :=
  (emitted k, !generatorSwallows "CancelledError")

end Sse

/-- Property of a /tools/call outcome: the handler produced an HTTP
response, and if it was not a success the body is exactly the JSON error
envelope \x7b"error": <string>\x7d. An exception escaping the handler
violates it. -/
def Main.failuresEnveloped : Main.EndpointOutcome → Bool
  | .response _ 200 _ => true
  | .response _ _ (.obj [("error", .str _)]) => true
  | _ => false

/-- The query parameter value an optional find_email argument should
produce: present with the supplied value exactly when the caller supplied
it non-empty. -/
def includedParam : Option String → Option JValue
  | some s => if s = "" then none else some (.str s)
  | none => none

/-- Property of an operation result: it is a normal return or the uniform
error kind (ValueError), the only two outcomes the error-mapping contract
allows. -/
def HunterAPI.isUniformResult : PyResult JValue → Bool
  | .ok _ => true
  | .exn cls _ => cls == "ValueError"

/-- Results of the three Upstream Client operations on the same transport
behaviour, for quantifying over every operation at once. -/
def HunterAPI.opResults (apiKey : String) (domain : JValue)
    (fn ln co fu : Option JValue) (email : JValue) (dsDomain : JValue)
    (lim ty : Option JValue) (t : Transport) : List (PyResult JValue) :=
  [(HunterAPI.find_email apiKey domain fn ln co fu t).result,
   (HunterAPI.verify_email apiKey email t).result,
   (HunterAPI.domain_search apiKey dsDomain lim ty t).result]

section Helpers

/-- Lookup distributes over append: the first list wins. -/
theorem lookup_append {α β : Type} [BEq α] (a : α) (l₁ l₂ : List (α × β)) :
    (l₁ ++ l₂).lookup a = ((l₁.lookup a).or (l₂.lookup a)) := by
  induction l₁ with
  | nil => simp [List.lookup]
  | cons x xs ih =>
    obtain ⟨k, v⟩ := x
    simp only [List.cons_append, List.lookup_cons]
    cases h : a == k <;> simp [ih]

/-- The needle occurs somewhere inside the haystack. -/
def occursIn (needle haystack : String) : Prop :=
  ∃ pre post, haystack = pre ++ needle ++ post

/-- Occurrence is preserved by prepending. -/
theorem occursIn_append_left {n h : String} (s : String) (hyp : occursIn n h) :
    occursIn n (s ++ h) := by
  obtain ⟨pre, post, rfl⟩ := hyp
  exact ⟨s ++ pre, post, by simp [String.append_assoc]⟩

/-- Occurrence is preserved by appending. -/
theorem occursIn_append_right {n h : String} (s : String) (hyp : occursIn n h) :
    occursIn n (h ++ s) := by
  obtain ⟨pre, post, rfl⟩ := hyp
  exact ⟨pre, post ++ s, by simp [String.append_assoc]⟩

/-- The repr of a params dict that ends with the api_key entry contains the
key value itself. -/
theorem pyReprEntries_occurs (ps : List (String × JValue)) (k v : String) :
    occursIn v (pyReprEntries (ps ++ [(k, .str v)])) := by
  induction ps with
  | nil =>
    show occursIn v ("'" ++ k ++ "': " ++ ("'" ++ v ++ "'"))
    exact occursIn_append_left _ ⟨"'", "'", rfl⟩
  | cons x xs ih =>
    obtain ⟨k', v'⟩ := x
    cases xs with
    | nil =>
      show occursIn v ("'" ++ k' ++ "': " ++ JValue.pyRepr v' ++ ", "
        ++ pyReprEntries ([] ++ [(k, JValue.str v)]))
      exact occursIn_append_left _ ih
    | cons y ys =>
      show occursIn v ("'" ++ k' ++ "': " ++ JValue.pyRepr v' ++ ", "
        ++ pyReprEntries ((y :: ys) ++ [(k, JValue.str v)]))
      exact occursIn_append_left _ ih

end Helpers

/-- The outbound call hrequest makes is the same in every transport
branch: the given method and endpoint, with the api_key appended to the
caller's params. -/
theorem hrequest_call (k m e : String) (p : List (String × JValue)) (t : Transport) :
    (HunterAPI.hrequest k m e p t).call
      = ⟨m, HunterAPI.BASE_URL ++ "/" ++ e, p ++ [("api_key", .str k)]⟩ := by
  cases t with
  | clientError m' => rfl
  | response r =>
    by_cases h : 400 ≤ r.status
    · cases hb : r.body with
      | none =>
        cases he : HunterAPI.errorDetails (.obj [("error", .str r.statusMessage)])
            r.statusMessage <;>
          simp [HunterAPI.hrequest, h, hb, he]
      | some j =>
        cases he : HunterAPI.errorDetails j r.statusMessage <;>
          simp [HunterAPI.hrequest, h, hb, he]
    · cases hb : r.body <;> simp [HunterAPI.hrequest, h, hb]

/-- The first log line hrequest writes is the debug line carrying the full
params dict, api_key included. -/
theorem hrequest_log (k m e : String) (p : List (String × JValue)) (t : Transport) :
    (HunterAPI.hrequest k m e p t).logs.head?
      = some ("Making " ++ m ++ " request to " ++ (HunterAPI.BASE_URL ++ "/" ++ e)
          ++ " with params " ++ JValue.pyRepr (.obj (p ++ [("api_key", .str k)]))) := by
  cases t with
  | clientError m' => rfl
  | response r =>
    by_cases h : 400 ≤ r.status
    · cases hb : r.body with
      | none =>
        cases he : HunterAPI.errorDetails (.obj [("error", .str r.statusMessage)])
            r.statusMessage <;>
          simp [HunterAPI.hrequest, h, hb, he]
      | some j =>
        cases he : HunterAPI.errorDetails j r.statusMessage <;>
          simp [HunterAPI.hrequest, h, hb, he]
    · cases hb : r.body <;> simp [HunterAPI.hrequest, h, hb]

/-- The result of hrequest does not depend on the credential or the query
parameters (it is a function of the transport behaviour alone). -/
theorem hrequest_result_key (k₁ k₂ m e : String) (p₁ p₂ : List (String × JValue))
    (t : Transport) :
    (HunterAPI.hrequest k₁ m e p₁ t).result = (HunterAPI.hrequest k₂ m e p₂ t).result := by
  cases t with
  | clientError m' => rfl
  | response r =>
    by_cases h : 400 ≤ r.status
    · cases hb : r.body with
      | none =>
        cases he : HunterAPI.errorDetails (.obj [("error", .str r.statusMessage)])
            r.statusMessage <;>
          simp [HunterAPI.hrequest, h, hb, he]
      | some j =>
        cases he : HunterAPI.errorDetails j r.statusMessage <;>
          simp [HunterAPI.hrequest, h, hb, he]
    · cases hb : r.body <;> simp [HunterAPI.hrequest, h, hb]

/-- finishTool records exactly the one outbound call of the trace it
finishes. -/
theorem callsOf_finishTool (tr : RequestTrace) :
    Main.callsOf (Main.finishTool tr) = [tr.call] := by
  unfold Main.finishTool
  split <;> rfl

/-- The limit parameter of a domain_search call is 10 whenever the limit
argument defaults to 10. -/
theorem domain_search_limit (apiKey : String) (d : JValue) (ty : Option JValue)
    (t : Transport) (lim : Option JValue) (hl : lim.getD (.num 10) = .num 10) :
    (HunterAPI.domain_search apiKey d lim ty t).call.params.lookup "limit"
      = some (.num 10) := by
  show (HunterAPI.hrequest apiKey "GET" "domain-search"
      (HunterAPI.addIf [("domain", d), ("limit", lim.getD (.num 10))] "type" ty)
      t).call.params.lookup "limit" = _
  rw [hl, hrequest_call]
  unfold HunterAPI.addIf
  cases ty with
  | none => rw [lookup_append]; rfl
  | some x =>
    by_cases hx : x.truthy = true
    · simp only [hx, if_true]
      rw [List.append_assoc, lookup_append]; rfl
    · simp only [hx, if_false]
      rw [lookup_append]; rfl

/-- C6: a domain_search invocation with no limit supplied carries limit=10
in the outbound call, both when the Upstream Client is called directly
(Python's default parameter) and when it is dispatched from POST
/tools/call (arguments.get("limit", 10)). -/
theorem claim6_default_limit (apiKey : String) :
    (∀ (d : JValue) (ty : Option JValue) (t : Transport),
        (HunterAPI.domain_search apiKey d none ty t).call.params.lookup "limit"
          = some (.num 10))
  ∧ (∀ (kvs : List (String × JValue)) (t : Transport),
        kvs.lookup "limit" = none →
        ∀ c ∈ Main.callsOf (Main.call_tool apiKey
          (some (.obj [("name", .str "domain_search"), ("arguments", .obj kvs)])) t),
          c.params.lookup "limit" = some (.num 10)) := by
  constructor
  · intro d ty t
    exact domain_search_limit apiKey d ty t none rfl
  · intro kvs t hlim c hc
    rw [show Main.call_tool apiKey
        (some (.obj [("name", .str "domain_search"), ("arguments", .obj kvs)])) t
        = Main.dispatch apiKey (some (.str "domain_search")) (.obj kvs) t from rfl] at hc
    simp only [Main.dispatch] at hc
    rw [if_pos trivial] at hc
    cases hdom : kvs.lookup "domain" with
    | none =>
      rw [hdom] at hc
      simp [Main.callsOf] at hc
    | some d =>
      rw [hdom] at hc
      rw [if_neg (by decide), if_neg (by decide)] at hc
      simp only [callsOf_finishTool, List.mem_singleton] at hc
      subst hc
      exact domain_search_limit apiKey d (kvs.lookup "type") t
        (some ((kvs.lookup "limit").getD (.num 10))) (by rw [Option.getD_some, hlim]; rfl)

/-- Witness for C6: a gateway domain_search call without a limit argument
goes out with limit=10. -/
theorem claim6_default_limit_witness :
    ∀ c ∈ Main.callsOf (Main.call_tool "key"
      (some (.obj [("name", .str "domain_search"),
        ("arguments", .obj [("domain", .str "acme.com")])]))
      (.clientError "down")),
      c.params.lookup "limit" = some (.num 10) :=
  (claim6_default_limit "key").2 [("domain", .str "acme.com")] (.clientError "down") rfl

/-- Adding an optional parameter under a different name leaves a lookup
unchanged. -/
theorem lookup_addIf_ne (params : List (String × JValue)) (name k : String)
    (v : Option JValue) (h : (k == name) = false) :
    (HunterAPI.addIf params name v).lookup k = params.lookup k := by
  unfold HunterAPI.addIf
  cases v with
  | none => rfl
  | some x =>
    by_cases hx : x.truthy = true
    · simp only [hx, if_true]
      rw [lookup_append]
      simp [List.lookup, h]
    · simp [hx]

/-- Looking up the name addIf just handled: present with the supplied value
exactly when the value was supplied truthy. -/
theorem lookup_addIf_self (params : List (String × JValue)) (name : String)
    (v : Option JValue) (h : params.lookup name = none) :
    (HunterAPI.addIf params name v).lookup name =
      (match v with
       | some x => if x.truthy = true then some x else none
       | none => none) := by
  unfold HunterAPI.addIf
  cases v with
  | none => exact h
  | some x =>
    by_cases hx : x.truthy = true
    · simp only [hx, if_true]
      rw [lookup_append, h]
      simp [List.lookup]
    · simp [hx, h]

/-- The truthiness filter on an optional string argument is exactly the
supplied-non-empty test. -/
theorem includedParam_eq (o : Option String) :
    (match o.map JValue.str with
      | some x => if x.truthy = true then some x else none
      | none => none) = includedParam o := by
  cases o with
  | none => rfl
  | some s =>
    by_cases hs : s = ""
    · simp [hs, JValue.truthy, includedParam]
    · simp [JValue.truthy, includedParam, hs]

/-- C5: a find_email call with domain set sends domain and the credential
as query parameters, includes each optional field exactly when the caller
supplied it non-empty (with the supplied value), and on a successful JSON
envelope returns its "data" object, or an empty mapping when "data" is
absent. -/
theorem claim5_find_email_outbound (apiKey domain : String)
    (fn ln co fu : Option String) (t : Transport) :
    (HunterAPI.find_email apiKey (.str domain) (fn.map .str) (ln.map .str)
        (co.map .str) (fu.map .str) t).call.params.lookup "domain"
      = some (.str domain)
  ∧ (HunterAPI.find_email apiKey (.str domain) (fn.map .str) (ln.map .str)
        (co.map .str) (fu.map .str) t).call.params.lookup "api_key"
      = some (.str apiKey)
  ∧ (HunterAPI.find_email apiKey (.str domain) (fn.map .str) (ln.map .str)
        (co.map .str) (fu.map .str) t).call.params.lookup "first_name"
      = includedParam fn
  ∧ (HunterAPI.find_email apiKey (.str domain) (fn.map .str) (ln.map .str)
        (co.map .str) (fu.map .str) t).call.params.lookup "last_name"
      = includedParam ln
  ∧ (HunterAPI.find_email apiKey (.str domain) (fn.map .str) (ln.map .str)
        (co.map .str) (fu.map .str) t).call.params.lookup "company"
      = includedParam co
  ∧ (HunterAPI.find_email apiKey (.str domain) (fn.map .str) (ln.map .str)
        (co.map .str) (fu.map .str) t).call.params.lookup "full_name"
      = includedParam fu
  ∧ (∀ (bkvs : List (String × JValue)) (m : String),
        t = .response ⟨200, some (.obj bkvs), m⟩ →
        (HunterAPI.find_email apiKey (.str domain) (fn.map .str) (ln.map .str)
          (co.map .str) (fu.map .str) t).result
          = .ok ((bkvs.lookup "data").getD (.obj []))) := by
  have hcall : (HunterAPI.find_email apiKey (.str domain) (fn.map .str) (ln.map .str)
      (co.map .str) (fu.map .str) t).call
      = ⟨"GET", HunterAPI.BASE_URL ++ "/" ++ "email-finder",
          HunterAPI.addIf (HunterAPI.addIf (HunterAPI.addIf (HunterAPI.addIf
            [("domain", JValue.str domain)] "first_name" (fn.map JValue.str))
            "last_name" (ln.map JValue.str)) "company" (co.map JValue.str))
            "full_name" (fu.map JValue.str)
          ++ [("api_key", JValue.str apiKey)]⟩ :=
    hrequest_call apiKey "GET" "email-finder" _ t
  refine ⟨?_, ?_, ?_, ?_, ?_, ?_, ?_⟩
  · rw [hcall]
    show List.lookup "domain" (_ ++ _) = _
    rw [lookup_append, lookup_addIf_ne _ _ _ _ (by decide),
      lookup_addIf_ne _ _ _ _ (by decide), lookup_addIf_ne _ _ _ _ (by decide),
      lookup_addIf_ne _ _ _ _ (by decide)]
    rfl
  · rw [hcall]
    show List.lookup "api_key" (_ ++ _) = _
    rw [lookup_append, lookup_addIf_ne _ _ _ _ (by decide),
      lookup_addIf_ne _ _ _ _ (by decide), lookup_addIf_ne _ _ _ _ (by decide),
      lookup_addIf_ne _ _ _ _ (by decide)]
    rfl
  · rw [hcall]
    show List.lookup "first_name" (_ ++ _) = _
    rw [lookup_append, lookup_addIf_ne _ _ _ _ (by decide),
      lookup_addIf_ne _ _ _ _ (by decide), lookup_addIf_ne _ _ _ _ (by decide),
      lookup_addIf_self [("domain", JValue.str domain)] "first_name"
        (fn.map JValue.str) rfl, includedParam_eq]
    simp [List.lookup]
  · have hside : (HunterAPI.addIf [("domain", JValue.str domain)] "first_name"
        (fn.map JValue.str)).lookup "last_name" = none := by
      rw [lookup_addIf_ne _ _ _ _ (by decide)]; rfl
    rw [hcall]
    show List.lookup "last_name" (_ ++ _) = _
    rw [lookup_append, lookup_addIf_ne _ _ _ _ (by decide),
      lookup_addIf_ne _ _ _ _ (by decide),
      lookup_addIf_self _ _ _ hside, includedParam_eq]
    simp [List.lookup]
  · have hside : (HunterAPI.addIf (HunterAPI.addIf [("domain", JValue.str domain)]
        "first_name" (fn.map JValue.str)) "last_name"
        (ln.map JValue.str)).lookup "company" = none := by
      rw [lookup_addIf_ne _ _ _ _ (by decide), lookup_addIf_ne _ _ _ _ (by decide)]
      rfl
    rw [hcall]
    show List.lookup "company" (_ ++ _) = _
    rw [lookup_append, lookup_addIf_ne _ _ _ _ (by decide),
      lookup_addIf_self _ _ _ hside, includedParam_eq]
    simp [List.lookup]
  · have hside : (HunterAPI.addIf (HunterAPI.addIf (HunterAPI.addIf
        [("domain", JValue.str domain)] "first_name" (fn.map JValue.str))
        "last_name" (ln.map JValue.str)) "company"
        (co.map JValue.str)).lookup "full_name" = none := by
      rw [lookup_addIf_ne _ _ _ _ (by decide), lookup_addIf_ne _ _ _ _ (by decide),
        lookup_addIf_ne _ _ _ _ (by decide)]
      rfl
    rw [hcall]
    show List.lookup "full_name" (_ ++ _) = _
    rw [lookup_append, lookup_addIf_self _ _ _ hside, includedParam_eq]
    simp [List.lookup]
  · intro bkvs m ht
    subst ht
    simp [HunterAPI.find_email, HunterAPI.hrequest, HunterAPI.getData]

/-- Witness for C5: concrete optional arguments, one supplied, one
supplied empty, two unsupplied, against a concrete success envelope. -/
theorem claim5_find_email_outbound_witness :
    (HunterAPI.find_email "key" (.str "acme.com") (some (.str "John"))
        (some (.str "")) none none
        (.response ⟨200, some (.obj [("data", .num 7)]), "OK"⟩)).call.params.lookup
        "first_name" = some (.str "John")
  ∧ (HunterAPI.find_email "key" (.str "acme.com") (some (.str "John"))
        (some (.str "")) none none
        (.response ⟨200, some (.obj [("data", .num 7)]), "OK"⟩)).call.params.lookup
        "last_name" = none
  ∧ (HunterAPI.find_email "key" (.str "acme.com") (some (.str "John"))
        (some (.str "")) none none
        (.response ⟨200, some (.obj [("data", .num 7)]), "OK"⟩)).result
      = .ok (.num 7) :=
  ⟨(claim5_find_email_outbound "key" "acme.com" (some "John") (some "") none none
      (.response ⟨200, some (.obj [("data", .num 7)]), "OK"⟩)).2.2.1,
   (claim5_find_email_outbound "key" "acme.com" (some "John") (some "") none none
      (.response ⟨200, some (.obj [("data", .num 7)]), "OK"⟩)).2.2.2.1,
   (claim5_find_email_outbound "key" "acme.com" (some "John") (some "") none none
      (.response ⟨200, some (.obj [("data", .num 7)]), "OK"⟩)).2.2.2.2.2.2
      [("data", .num 7)] "OK" rfl⟩

/-- The api_key value occurs verbatim inside the request debug log line. -/
theorem debugLog_occurs (k m url : String) (p : List (String × JValue)) :
    occursIn k ("Making " ++ m ++ " request to " ++ url ++ " with params "
      ++ JValue.pyRepr (.obj (p ++ [("api_key", .str k)]))) := by
  apply occursIn_append_left
  show occursIn k ("\x7b" ++ pyReprEntries (p ++ [("api_key", JValue.str k)]) ++ "\x7d")
  exact occursIn_append_right _ (occursIn_append_left _ (pyReprEntries_occurs p "api_key" k))

/-- Traces with the same result finish to the same observed outcome: the
response sent back never depends on anything else in the trace. -/
theorem observed_finishTool_congr {tr₁ tr₂ : RequestTrace}
    (h : tr₁.result = tr₂.result) :
    Main.observed (Main.finishTool tr₁) = Main.observed (Main.finishTool tr₂) := by
  unfold Main.finishTool
  rw [h]
  generalize tr₂.result = r
  cases r <;> rfl

/-- verify_email results do not depend on the credential. -/
theorem verify_email_result_key (k₁ k₂ : String) (e : JValue) (t : Transport) :
    (HunterAPI.verify_email k₁ e t).result = (HunterAPI.verify_email k₂ e t).result := by
  show HunterAPI.getData (HunterAPI.hrequest k₁ "GET" "email-verifier" [("email", e)] t).result
    = HunterAPI.getData (HunterAPI.hrequest k₂ "GET" "email-verifier" [("email", e)] t).result
  exact congrArg _ (hrequest_result_key k₁ k₂ "GET" "email-verifier" _ _ t)

/-- find_email results do not depend on the credential. -/
theorem find_email_result_key (k₁ k₂ : String) (d : JValue)
    (fn ln co fu : Option JValue) (t : Transport) :
    (HunterAPI.find_email k₁ d fn ln co fu t).result
      = (HunterAPI.find_email k₂ d fn ln co fu t).result := by
  show HunterAPI.getData (HunterAPI.hrequest k₁ "GET" "email-finder" _ t).result
    = HunterAPI.getData (HunterAPI.hrequest k₂ "GET" "email-finder" _ t).result
  exact congrArg _ (hrequest_result_key k₁ k₂ "GET" "email-finder" _ _ t)

/-- domain_search results do not depend on the credential. -/
theorem domain_search_result_key (k₁ k₂ : String) (d : JValue)
    (lim ty : Option JValue) (t : Transport) :
    (HunterAPI.domain_search k₁ d lim ty t).result
      = (HunterAPI.domain_search k₂ d lim ty t).result := by
  show HunterAPI.getData (HunterAPI.hrequest k₁ "GET" "domain-search" _ t).result
    = HunterAPI.getData (HunterAPI.hrequest k₂ "GET" "domain-search" _ t).result
  exact congrArg _ (hrequest_result_key k₁ k₂ "GET" "domain-search" _ _ t)

/-- The observed /tools/call dispatch outcome does not depend on the
credential. -/
theorem dispatch_observed_key (k₁ k₂ : String) (nm : Option JValue)
    (args : JValue) (t : Transport) :
    Main.observed (Main.dispatch k₁ nm args t)
      = Main.observed (Main.dispatch k₂ nm args t) := by
  cases nm with
  | none => rfl
  | some v =>
    cases v with
    | null => rfl
    | bool b => rfl
    | num n => rfl
    | arr xs => rfl
    | obj kvs => rfl
    | str s =>
      show Main.observed (Main.dispatch k₁ (some (.str s)) args t)
        = Main.observed (Main.dispatch k₂ (some (.str s)) args t)
      rw [Main.dispatch.eq_def, Main.dispatch.eq_def]
      dsimp only
      by_cases h1 : s = "email_finder"
      · rw [if_pos h1, if_pos h1]
        cases args with
        | obj kvs =>
          dsimp only
          cases hf : (kvs.map Prod.fst).find?
              (fun k => !(Main.findEmailAllowedKeys.contains k)) with
          | some k => rfl
          | none =>
            cases hd : kvs.lookup "domain" with
            | none => rfl
            | some d =>
              exact observed_finishTool_congr
                (find_email_result_key k₁ k₂ d (kvs.lookup "first_name")
                  (kvs.lookup "last_name") (kvs.lookup "company")
                  (kvs.lookup "full_name") t)
        | null => rfl
        | bool b => rfl
        | num n => rfl
        | str s2 => rfl
        | arr xs => rfl
      · rw [if_neg h1, if_neg h1]
        by_cases h2 : s = "email_verifier"
        · rw [if_pos h2, if_pos h2]
          cases args with
          | obj kvs =>
            dsimp only
            cases he : kvs.lookup "email" with
            | none => rfl
            | some em =>
              exact observed_finishTool_congr (verify_email_result_key k₁ k₂ em t)
          | null => rfl
          | bool b => rfl
          | num n => rfl
          | str s2 => rfl
          | arr xs => rfl
        · rw [if_neg h2, if_neg h2]
          by_cases h3 : s = "domain_search"
          · rw [if_pos h3, if_pos h3]
            cases args with
            | obj kvs =>
              dsimp only
              cases hd : kvs.lookup "domain" with
              | none => rfl
              | some d =>
                exact observed_finishTool_congr
                  (domain_search_result_key k₁ k₂ d
                    (some ((kvs.lookup "limit").getD (.num 10)))
                    (kvs.lookup "type") t)
            | null => rfl
            | bool b => rfl
            | num n => rfl
            | str s2 => rfl
            | arr xs => rfl
          · rw [if_neg h3, if_neg h3]

/-- Counterexample refuting C1 as stated: the credential is written to log
output. The debug line of hunter_api.py line 47 is emitted after the
api_key has been added to the params dict, so the key value appears
verbatim in the log. -/
theorem claim1_cex :
    ∃ pre post,
      (HunterAPI.verify_email "SECRET-791e" (.str "a@b.com")
        (.response ⟨200, some (.obj [("data", .obj [])]), "OK"⟩)).logs
        = [pre ++ "SECRET-791e" ++ post] :=
  ⟨"Making GET request to https://api.hunter.io/v2/email-verifier with params \x7b'email': 'a@b.com', 'api_key': '",
   "'\x7d", rfl⟩

/-- C1 as amended: for every outbound call of the three Upstream Client
operations the credential is attached as the api_key query parameter, and
the response returned to the gateway's caller is independent of the
credential (so the key is never echoed in responses); but the credential
IS written to log output: the request debug line contains it verbatim. -/
theorem claim1_amended :
    (∀ (apiKey : String) (email : JValue) (t : Transport),
        ("api_key", JValue.str apiKey) ∈ (HunterAPI.verify_email apiKey email t).call.params
      ∧ ∃ pre post, (HunterAPI.verify_email apiKey email t).logs.head?
          = some (pre ++ apiKey ++ post))
  ∧ (∀ (apiKey : String) (domain : JValue) (fn ln co fu : Option JValue) (t : Transport),
        ("api_key", JValue.str apiKey)
          ∈ (HunterAPI.find_email apiKey domain fn ln co fu t).call.params
      ∧ ∃ pre post, (HunterAPI.find_email apiKey domain fn ln co fu t).logs.head?
          = some (pre ++ apiKey ++ post))
  ∧ (∀ (apiKey : String) (domain : JValue) (lim ty : Option JValue) (t : Transport),
        ("api_key", JValue.str apiKey)
          ∈ (HunterAPI.domain_search apiKey domain lim ty t).call.params
      ∧ ∃ pre post, (HunterAPI.domain_search apiKey domain lim ty t).logs.head?
          = some (pre ++ apiKey ++ post))
  ∧ (∀ (k₁ k₂ : String) (body : Option JValue) (t : Transport),
        Main.observed (Main.call_tool k₁ body t)
          = Main.observed (Main.call_tool k₂ body t)) := by
  refine ⟨?_, ?_, ?_, ?_⟩
  · intro apiKey email t
    constructor
    · show ("api_key", JValue.str apiKey)
        ∈ (HunterAPI.hrequest apiKey "GET" "email-verifier" [("email", email)] t).call.params
      rw [hrequest_call]
      simp
    · have hlog := hrequest_log apiKey "GET" "email-verifier" [("email", email)] t
      obtain ⟨pre, post, hocc⟩ :=
        debugLog_occurs apiKey "GET" (HunterAPI.BASE_URL ++ "/" ++ "email-verifier")
          [("email", email)]
      exact ⟨pre, post, by rw [show (HunterAPI.verify_email apiKey email t).logs
        = (HunterAPI.hrequest apiKey "GET" "email-verifier" [("email", email)] t).logs
        from rfl, hlog, hocc]⟩
  · intro apiKey domain fn ln co fu t
    constructor
    · show ("api_key", JValue.str apiKey)
        ∈ (HunterAPI.hrequest apiKey "GET" "email-finder"
            (HunterAPI.addIf (HunterAPI.addIf (HunterAPI.addIf (HunterAPI.addIf
              [("domain", domain)] "first_name" fn) "last_name" ln) "company" co)
              "full_name" fu) t).call.params
      rw [hrequest_call]
      simp
    · have hlog := hrequest_log apiKey "GET" "email-finder"
        (HunterAPI.addIf (HunterAPI.addIf (HunterAPI.addIf (HunterAPI.addIf
          [("domain", domain)] "first_name" fn) "last_name" ln) "company" co)
          "full_name" fu) t
      obtain ⟨pre, post, hocc⟩ :=
        debugLog_occurs apiKey "GET" (HunterAPI.BASE_URL ++ "/" ++ "email-finder")
          (HunterAPI.addIf (HunterAPI.addIf (HunterAPI.addIf (HunterAPI.addIf
            [("domain", domain)] "first_name" fn) "last_name" ln) "company" co)
            "full_name" fu)
      exact ⟨pre, post, by rw [show (HunterAPI.find_email apiKey domain fn ln co fu t).logs
        = (HunterAPI.hrequest apiKey "GET" "email-finder"
            (HunterAPI.addIf (HunterAPI.addIf (HunterAPI.addIf (HunterAPI.addIf
              [("domain", domain)] "first_name" fn) "last_name" ln) "company" co)
              "full_name" fu) t).logs from rfl, hlog, hocc]⟩
  · intro apiKey domain lim ty t
    constructor
    · show ("api_key", JValue.str apiKey)
        ∈ (HunterAPI.hrequest apiKey "GET" "domain-search"
            (HunterAPI.addIf [("domain", domain), ("limit", lim.getD (.num 10))]
              "type" ty) t).call.params
      rw [hrequest_call]
      simp
    · have hlog := hrequest_log apiKey "GET" "domain-search"
        (HunterAPI.addIf [("domain", domain), ("limit", lim.getD (.num 10))] "type" ty) t
      obtain ⟨pre, post, hocc⟩ :=
        debugLog_occurs apiKey "GET" (HunterAPI.BASE_URL ++ "/" ++ "domain-search")
          (HunterAPI.addIf [("domain", domain), ("limit", lim.getD (.num 10))] "type" ty)
      exact ⟨pre, post, by rw [show (HunterAPI.domain_search apiKey domain lim ty t).logs
        = (HunterAPI.hrequest apiKey "GET" "domain-search"
            (HunterAPI.addIf [("domain", domain), ("limit", lim.getD (.num 10))]
              "type" ty) t).logs from rfl, hlog, hocc]⟩
  · intro k₁ k₂ body t
    cases body with
    | none => rfl
    | some v =>
      cases v with
      | null => rfl
      | bool b => rfl
      | num n => rfl
      | str s => rfl
      | arr xs => rfl
      | obj kvs =>
        exact dispatch_observed_key k₁ k₂ (kvs.lookup "name")
          ((kvs.lookup "arguments").getD (.obj [])) t

/-- Counterexample refuting C3 as stated: an upstream 401 whose JSON body
carries an empty errors array is a non-2xx status, yet the operation does
not raise the uniform error — subscripting the empty list raises an
unhandled IndexError instead. -/
theorem claim3_cex :
    (HunterAPI.verify_email "key" (.str "a@b.com")
        (.response ⟨401, some (.obj [("errors", .arr [])]), "Unauthorized"⟩)).result
      = .exn "IndexError" "list index out of range"
  ∧ ∀ m, (HunterAPI.verify_email "key" (.str "a@b.com")
        (.response ⟨401, some (.obj [("errors", .arr [])]), "Unauthorized"⟩)).result
      ≠ .exn "ValueError" m := by
  refine ⟨rfl, ?_⟩
  intro m h
  rw [show (HunterAPI.verify_email "key" (.str "a@b.com")
      (.response ⟨401, some (.obj [("errors", .arr [])]), "Unauthorized"⟩)).result
    = PyResult.exn "IndexError" "list index out of range" from rfl] at h
  injection h with h1 h2
  exact absurd h1 (by decide)

/-- C3 as amended: on any upstream error status (>= 400; redirects are
followed by the transport), every Upstream Client operation raises the
uniform ValueError whose message ends with the str() of the details field
of the first entry of the errors array when the body is a JSON object
whose errors value is a nonempty array with an object first entry, and
with the transport-level status message when the body is not JSON or has
no errors key; a JSON body with an empty errors array instead raises an
unhandled IndexError (see the counterexample). In particular the upstream
401 with body \x7b"errors": [\x7b"details": "Invalid API key"\x7d]\x7d
makes POST /tools/call answer HTTP 500 with an error message ending in
"Invalid API key". -/
theorem claim3_amended :
    (∀ (key : String) (domain email dsDomain : JValue)
        (fn ln co fu lim ty : Option JValue)
        (r : UpstreamResponse) (kvs entry : List (String × JValue))
        (rest : List JValue),
        400 ≤ r.status →
        r.body = some (.obj kvs) →
        kvs.lookup "errors" = some (.arr (.obj entry :: rest)) →
        ∀ res ∈ HunterAPI.opResults key domain fn ln co fu email dsDomain lim ty
            (.response r),
          res = .exn "ValueError"
            ("Hunter API error: " ++ pyStrOpt (entry.lookup "details")))
  ∧ (∀ (key : String) (domain email dsDomain : JValue)
        (fn ln co fu lim ty : Option JValue) (r : UpstreamResponse),
        400 ≤ r.status →
        (r.body = none
          ∨ ∃ kvs, r.body = some (.obj kvs) ∧ kvs.lookup "errors" = none) →
        ∀ res ∈ HunterAPI.opResults key domain fn ln co fu email dsDomain lim ty
            (.response r),
          res = .exn "ValueError" ("Hunter API error: " ++ r.statusMessage))
  ∧ (∀ key : String,
        Main.call_tool key
          (some (.obj [("name", .str "email_verifier"),
            ("arguments", .obj [("email", .str "a@b.com")])]))
          (.response ⟨401,
            some (.obj [("errors", .arr [.obj [("details", .str "Invalid API key")]])]),
            "Unauthorized"⟩)
        = .response
            [⟨"GET", "https://api.hunter.io/v2/email-verifier",
              [("email", .str "a@b.com"), ("api_key", .str key)]⟩]
            500 (.obj [("error", .str "Hunter API error: Invalid API key")])
      ∧ ∃ pre, "Hunter API error: Invalid API key" = pre ++ "Invalid API key") := by
  refine ⟨?_, ?_, ?_⟩
  · intro key domain email dsDomain fn ln co fu lim ty r kvs entry rest
      hst hbody herr res hres
    have hr : ∀ (m e : String) (p : List (String × JValue)),
        (HunterAPI.hrequest key m e p (.response r)).result
          = .exn "ValueError"
              ("Hunter API error: " ++ pyStrOpt (entry.lookup "details")) := by
      intro m e p
      simp [HunterAPI.hrequest, HunterAPI.errorDetails, hst, hbody, herr]
    simp only [HunterAPI.opResults, List.mem_cons, List.not_mem_nil, or_false] at hres
    rcases hres with h | h | h
    · rw [h, show (HunterAPI.find_email key domain fn ln co fu (.response r)).result
        = HunterAPI.getData (HunterAPI.hrequest key "GET" "email-finder"
            (HunterAPI.addIf (HunterAPI.addIf (HunterAPI.addIf (HunterAPI.addIf
              [("domain", domain)] "first_name" fn) "last_name" ln) "company" co)
              "full_name" fu) (.response r)).result from rfl, hr]
      rfl
    · rw [h, show (HunterAPI.verify_email key email (.response r)).result
        = HunterAPI.getData (HunterAPI.hrequest key "GET" "email-verifier"
            [("email", email)] (.response r)).result from rfl, hr]
      rfl
    · rw [h, show (HunterAPI.domain_search key dsDomain lim ty (.response r)).result
        = HunterAPI.getData (HunterAPI.hrequest key "GET" "domain-search"
            (HunterAPI.addIf [("domain", dsDomain), ("limit", lim.getD (.num 10))]
              "type" ty) (.response r)).result from rfl, hr]
      rfl
  · intro key domain email dsDomain fn ln co fu lim ty r hst hbody res hres
    have hr : ∀ (m e : String) (p : List (String × JValue)),
        (HunterAPI.hrequest key m e p (.response r)).result
          = .exn "ValueError" ("Hunter API error: " ++ r.statusMessage) := by
      intro m e p
      rcases hbody with hb | ⟨kvs, hb, herr⟩
      · simp [HunterAPI.hrequest, HunterAPI.errorDetails, hst, hb, List.lookup,
          pyStrOpt, JValue.pyStr]
      · simp [HunterAPI.hrequest, HunterAPI.errorDetails, hst, hb, herr, List.lookup,
          pyStrOpt, JValue.pyStr]
    simp only [HunterAPI.opResults, List.mem_cons, List.not_mem_nil, or_false] at hres
    rcases hres with h | h | h
    · rw [h, show (HunterAPI.find_email key domain fn ln co fu (.response r)).result
        = HunterAPI.getData (HunterAPI.hrequest key "GET" "email-finder"
            (HunterAPI.addIf (HunterAPI.addIf (HunterAPI.addIf (HunterAPI.addIf
              [("domain", domain)] "first_name" fn) "last_name" ln) "company" co)
              "full_name" fu) (.response r)).result from rfl, hr]
      rfl
    · rw [h, show (HunterAPI.verify_email key email (.response r)).result
        = HunterAPI.getData (HunterAPI.hrequest key "GET" "email-verifier"
            [("email", email)] (.response r)).result from rfl, hr]
      rfl
    · rw [h, show (HunterAPI.domain_search key dsDomain lim ty (.response r)).result
        = HunterAPI.getData (HunterAPI.hrequest key "GET" "domain-search"
            (HunterAPI.addIf [("domain", dsDomain), ("limit", lim.getD (.num 10))]
              "type" ty) (.response r)).result from rfl, hr]
      rfl
  · intro key
    exact ⟨rfl, ⟨"Hunter API error: ", rfl⟩⟩

/-- Witness for C3 as amended: the 401 with a details entry, a plain
non-JSON 500, and the end-to-end 401 scenario. -/
theorem claim3_amended_witness :
    (HunterAPI.verify_email "key" (.str "a@b.com")
        (.response ⟨401,
          some (.obj [("errors", .arr [.obj [("details", .str "Invalid API key")]])]),
          "Unauthorized"⟩)).result
      = .exn "ValueError"
          ("Hunter API error: "
            ++ pyStrOpt (([("details", JValue.str "Invalid API key")]).lookup "details"))
  ∧ (HunterAPI.domain_search "key" (.str "x.com") none none
        (.response ⟨500, none, "Internal Server Error"⟩)).result
      = .exn "ValueError" ("Hunter API error: " ++ "Internal Server Error") := by
  constructor
  · exact claim3_amended.1 "key" (.str "x.com") (.str "a@b.com")
      (.str "x.com") none none none none none none
      ⟨401, some (.obj [("errors", .arr [.obj [("details", .str "Invalid API key")]])]),
        "Unauthorized"⟩
      [("errors", .arr [.obj [("details", .str "Invalid API key")]])]
      [("details", .str "Invalid API key")] [] (by decide) rfl rfl
      (HunterAPI.verify_email "key" (.str "a@b.com")
        (.response ⟨401,
          some (.obj [("errors", .arr [.obj [("details", .str "Invalid API key")]])]),
          "Unauthorized"⟩)).result
      (by simp [HunterAPI.opResults])
  · exact claim3_amended.2.1 "key" (.str "x.com") (.str "a@b.com") (.str "x.com")
      none none none none none none
      ⟨500, none, "Internal Server Error"⟩ (by decide) (Or.inl rfl)
      (HunterAPI.domain_search "key" (.str "x.com") none none
        (.response ⟨500, none, "Internal Server Error"⟩)).result
      (by simp [HunterAPI.opResults])

/-- C4: evaluating the Upstream Client at the failing input. An upstream
404 whose JSON body is \x7b"errors": []\x7d makes domain_search raise an
unhandled IndexError from the error-mapping expression of hunter_api.py
line 56 — neither a normal return nor the uniform ValueError the
error-mapping contract prescribes. -/
theorem claim4_bug_eval :
    (HunterAPI.domain_search "key" (.str "acme.com") none none
        (.response ⟨404, some (.obj [("errors", .arr [])]), "Not Found"⟩)).result
      = .exn "IndexError" "list index out of range"
  ∧ HunterAPI.isUniformResult
      ((HunterAPI.domain_search "key" (.str "acme.com") none none
        (.response ⟨404, some (.obj [("errors", .arr [])]), "Not Found"⟩)).result)
      = false :=
  ⟨rfl, rfl⟩

/-- However the generator run is cut, the events emitted so far are
exactly the promised prefix: handshake events in order, then pings. -/
theorem sse_emitted_ideal (k : Nat) :
    Sse.emitted k = Sse.idealFirst (Sse.yieldCount k) := by
  induction k with
  | zero => rfl
  | succ k ih =>
    by_cases hk : k < 6
    · interval_cases k <;> rfl
    · obtain ⟨m, rfl⟩ : ∃ m, k = m + 6 := ⟨k - 6, by omega⟩
      rw [show Sse.emitted (m + 6 + 1) = Sse.emitted (m + 6) ++
          (match Sse.genStep (m + 6) with
           | .yieldEv e => [e]
           | .sleepT _ => []) from rfl, ih]
      by_cases hm : m % 2 = 0
      · rw [show Sse.genStep (m + 6) = .sleepT 100 from by
          simp only [Sse.genStep]; rw [if_pos hm]]
        have hc : Sse.yieldCount (m + 6 + 1) = Sse.yieldCount (m + 6) := by
          simp only [Sse.yieldCount]
          split <;> split <;> omega
        rw [hc]
        simp
      · rw [show Sse.genStep (m + 6) = .yieldEv "ping" from by
          simp only [Sse.genStep]; rw [if_neg hm]]
        have hc : Sse.yieldCount (m + 6 + 1) = Sse.yieldCount (m + 6) + 1 := by
          simp only [Sse.yieldCount]
          split <;> split <;> omega
        rw [hc]
        rw [show Sse.idealFirst (Sse.yieldCount (m + 6) + 1)
            = Sse.idealFirst (Sse.yieldCount (m + 6))
              ++ [Sse.idealEvent (Sse.yieldCount (m + 6))] from by
          simp [Sse.idealFirst, List.range_succ]]
        obtain ⟨j, hj⟩ : ∃ j, Sse.yieldCount (m + 6) = j + 3 := by
          refine ⟨(m - 1) / 2, ?_⟩
          simp only [Sse.yieldCount]
          split <;> omega
        rw [hj]
        rfl

/-- C8: the /sse event generator emits exactly one connected event, then
one capabilities event, then one initialization_complete event, then only
ping events; consecutive pings are 100 tenths of a second (the configured
10 s) apart; and cancellation at any await stops emission with the events
so far and raises no error (CancelledError is swallowed). -/
theorem claim8_sse_stream :
    (∀ k, Sse.emitted k = Sse.idealFirst (Sse.yieldCount k))
  ∧ (∀ n, Sse.genStep (Sse.eventIdx n) = .yieldEv (Sse.idealEvent n))
  ∧ (∀ i e, Sse.genStep i = .yieldEv e →
        ∃ n, i = Sse.eventIdx n ∧ e = Sse.idealEvent n)
  ∧ (∀ n, Sse.eventIdx n < Sse.eventIdx (n + 1))
  ∧ (∀ m, Sse.elapsed (Sse.eventIdx (m + 4))
        = Sse.elapsed (Sse.eventIdx (m + 3)) + 100)
  ∧ (∀ k, Sse.cancelRun k = (Sse.emitted k, false)) := by
  refine ⟨sse_emitted_ideal, ?_, ?_, ?_, ?_, ?_⟩
  · intro n
    match n with
    | 0 => rfl
    | 1 => rfl
    | 2 => rfl
    | m + 3 =>
      rw [show Sse.eventIdx (m + 3) = (2 * m + 1) + 6 from by
        simp only [Sse.eventIdx]; rw [if_neg (by omega)]; omega]
      simp only [Sse.genStep]
      rw [if_neg (by omega)]
      rfl
  · intro i e h
    match i with
    | 0 =>
      simp only [Sse.genStep, Sse.GenStep.yieldEv.injEq] at h
      exact ⟨0, rfl, h.symm⟩
    | 1 => exact absurd h (by simp [Sse.genStep])
    | 2 =>
      simp only [Sse.genStep, Sse.GenStep.yieldEv.injEq] at h
      exact ⟨1, rfl, h.symm⟩
    | 3 => exact absurd h (by simp [Sse.genStep])
    | 4 =>
      simp only [Sse.genStep, Sse.GenStep.yieldEv.injEq] at h
      exact ⟨2, rfl, h.symm⟩
    | 5 => exact absurd h (by simp [Sse.genStep])
    | m + 6 =>
      by_cases hm : m % 2 = 0
      · rw [show Sse.genStep (m + 6) = .sleepT 100 from by
          simp only [Sse.genStep]; rw [if_pos hm]] at h
        exact absurd h (by simp)
      · rw [show Sse.genStep (m + 6) = .yieldEv "ping" from by
          simp only [Sse.genStep]; rw [if_neg hm]] at h
        obtain ⟨j, rfl⟩ : ∃ j, m = 2 * j + 1 := ⟨m / 2, by omega⟩
        refine ⟨j + 3, ?_, ?_⟩
        · simp only [Sse.eventIdx]
          rw [if_neg (by omega)]
          omega
        · have : "ping" = e := by injection h
          exact this.symm
  · intro n
    simp only [Sse.eventIdx]
    split <;> split <;> omega
  · intro m
    rw [show Sse.eventIdx (m + 4) = 2 * m + 9 from by
      simp only [Sse.eventIdx]; rw [if_neg (by omega)]; omega]
    rw [show Sse.eventIdx (m + 3) = 2 * m + 7 from by
      simp only [Sse.eventIdx]; rw [if_neg (by omega)]; omega]
    have s1 : Sse.elapsed (2 * m + 9) = Sse.elapsed (2 * m + 8) + 100 := by
      rw [show 2 * m + 9 = (2 * m + 8) + 1 from by omega]
      have g : Sse.genStep (2 * m + 8) = .sleepT 100 := by
        rw [show 2 * m + 8 = (2 * m + 2) + 6 from by omega]
        simp only [Sse.genStep]
        rw [if_pos (by omega)]
      rw [show Sse.elapsed ((2 * m + 8) + 1) = Sse.elapsed (2 * m + 8) +
          (match Sse.genStep (2 * m + 8) with
           | .yieldEv _ => 0
           | .sleepT d => d) from rfl, g]
    have s2 : Sse.elapsed (2 * m + 8) = Sse.elapsed (2 * m + 7) := by
      rw [show 2 * m + 8 = (2 * m + 7) + 1 from by omega]
      have g : Sse.genStep (2 * m + 7) = .yieldEv "ping" := by
        rw [show 2 * m + 7 = (2 * m + 1) + 6 from by omega]
        simp only [Sse.genStep]
        rw [if_neg (by omega)]
      rw [show Sse.elapsed ((2 * m + 7) + 1) = Sse.elapsed (2 * m + 7) +
          (match Sse.genStep (2 * m + 7) with
           | .yieldEv _ => 0
           | .sleepT d => d) from rfl, g]
      rfl
    rw [s1, s2]
  · intro k
    rfl

/-- Witness for C8: a concrete cut after nine steps shows the exact event
prefix, the fourth event is a ping one step after the third, and a
concrete yield is located by the completeness part. -/
theorem claim8_sse_stream_witness :
    Sse.emitted 9 = ["connected", "capabilities", "initialization_complete", "ping"]
  ∧ (∃ n, 7 = Sse.eventIdx n ∧ "ping" = Sse.idealEvent n)
  ∧ Sse.cancelRun 9 = (Sse.emitted 9, false) :=
  ⟨by rw [claim8_sse_stream.1 9]; rfl,
   claim8_sse_stream.2.2.1 7 "ping" rfl,
   claim8_sse_stream.2.2.2.2.2 9⟩

/-- C10: a /tools/call body with no name field at all makes data.get("name")
produce None, which falls through the dispatch chain to the unknown-tool
branch: HTTP 404 with error message "Unknown tool: None". -/
theorem claim10_absent_name (apiKey : String) (kvs : List (String × JValue))
    (t : Transport) (h : kvs.lookup "name" = none) :
    Main.call_tool apiKey (some (.obj kvs)) t =
      .response [] 404 (.obj [("error", .str "Unknown tool: None")]) := by
  show Main.dispatch apiKey (kvs.lookup "name") ((kvs.lookup "arguments").getD (.obj [])) t = _
  rw [h]
  rfl

/-- Witness for C10 at the empty request object. -/
theorem claim10_absent_name_witness :
    Main.call_tool "key" (some (.obj [])) (.clientError "down") =
      .response [] 404 (.obj [("error", .str "Unknown tool: None")]) :=
  claim10_absent_name "key" [] (.clientError "down") rfl

/-- C7: POST /tools/call dispatches by name. A request whose name is a
string outside the registry gets HTTP 404 with body
\x7b"error": "Unknown tool: <name>"\x7d and makes no outbound call; a
request for email_verifier with arguments \x7b"email": "a@b.com"\x7d makes
exactly one outbound GET to the email-verifier endpoint carrying
email=a@b.com (plus the credential) and is answered 200 with the single
pretty-printed text content block built from the upstream data. -/
theorem claim7_dispatch_by_name (apiKey : String) :
    (∀ (kvs : List (String × JValue)) (n : String) (t : Transport),
        kvs.lookup "name" = some (.str n) → n ∉ Main.toolNames →
        Main.call_tool apiKey (some (.obj kvs)) t =
          .response [] 404 (.obj [("error", .str ("Unknown tool: " ++ n))]))
  ∧ (∀ (bkvs : List (String × JValue)) (m : String),
        Main.call_tool apiKey
          (some (.obj [("name", .str "email_verifier"),
            ("arguments", .obj [("email", .str "a@b.com")])]))
          (.response ⟨200, some (.obj bkvs), m⟩) =
        .response
          [⟨"GET", "https://api.hunter.io/v2/email-verifier",
            [("email", .str "a@b.com"), ("api_key", .str apiKey)]⟩]
          200 (Main.contentEnvelope ((bkvs.lookup "data").getD (.obj [])))) := by
  constructor
  · intro kvs n t hlook hn
    show Main.dispatch apiKey (kvs.lookup "name")
      ((kvs.lookup "arguments").getD (.obj [])) t = _
    rw [hlook]
    simp only [Main.toolNames, List.mem_cons, List.not_mem_nil, or_false] at hn
    push_neg at hn
    obtain ⟨h1, h2, h3⟩ := hn
    simp [Main.dispatch, h1, h2, h3]
  · intro bkvs m
    simp [Main.call_tool, Main.dispatch, Main.finishTool, HunterAPI.verify_email,
      HunterAPI.hrequest, HunterAPI.getData, HunterAPI.BASE_URL, List.lookup]

/-- Counterexample refuting C9 as stated: a request body that is not valid
JSON is a failure arising while handling POST /tools/call, yet it is not
caught at the endpoint boundary — request.json() runs before the try block
(main.py line 156), so the decode error escapes and no
\x7b"error": <string>\x7d envelope is produced. -/
theorem claim9_cex :
    Main.call_tool "key" none (.clientError "down")
        = .raised "JSONDecodeError" "Expecting value: line 1 column 1 (char 0)"
      ∧ Main.failuresEnveloped (Main.call_tool "key" none (.clientError "down"))
        = false :=
  ⟨rfl, rfl⟩

/-- C9 as amended: once the request body has been parsed as a JSON object,
every failure of any kind while handling /tools/call is caught at the
endpoint boundary and becomes a JSON error envelope (the 404 unknown-tool
envelope or a 500 \x7b"error": <string>\x7d envelope); only the message
string crosses the boundary. -/
theorem claim9_amended (apiKey : String) (kvs : List (String × JValue))
    (t : Transport) :
    Main.failuresEnveloped (Main.call_tool apiKey (some (.obj kvs)) t) = true := by
  show Main.failuresEnveloped
    (Main.dispatch apiKey (kvs.lookup "name") ((kvs.lookup "arguments").getD (.obj [])) t) = true
  generalize (kvs.lookup "name") = nm
  generalize ((kvs.lookup "arguments").getD (.obj [])) = args
  unfold Main.dispatch
  rcases nm with _ | v
  · rfl
  cases v <;> try rfl
  rename_i s
  repeat' split
  all_goals try unfold Main.finishTool
  all_goals try dsimp only
  all_goals repeat' split
  all_goals rfl

/-- Counterexample refuting C2 as stated: the arguments
\x7b"domain": "acme.com"\x7d violate the email_finder schema's anyOf rule,
yet dispatching the request still invokes the Upstream Client — one
outbound call is made. -/
theorem claim2_cex :
    Main.emailFinderSchemaOk [("domain", .str "acme.com")] = false
  ∧ (Main.callsOf (Main.call_tool "key"
      (some (.obj [("name", .str "email_finder"),
        ("arguments", .obj [("domain", .str "acme.com")])]))
      (.response ⟨200, some (.obj [("data", .obj [])]), "OK"⟩))).length = 1 :=
  ⟨rfl, rfl⟩

/-- C2 as amended: /tools/call performs no schema validation. For a
registered tool the arguments are spread directly into the Upstream Client
call, so whenever the spread itself succeeds (every key is one of the five
find_email parameters and domain is present) the Upstream Client is
invoked regardless of the schema's cross-field anyOf rule; only arguments
that break the Python call itself (here: a missing domain) fail first,
with an HTTP 500 error envelope and no outbound call. -/
theorem claim2_amended (apiKey : String) (kvs : List (String × JValue))
    (t : Transport) :
    ((kvs.map Prod.fst).all (fun k => Main.findEmailAllowedKeys.contains k) = true →
      ∀ d, kvs.lookup "domain" = some d →
        (Main.callsOf (Main.call_tool apiKey
          (some (.obj [("name", .str "email_finder"), ("arguments", .obj kvs)]))
          t)).length = 1)
  ∧ (kvs.lookup "domain" = none →
      Main.callsOf (Main.call_tool apiKey
          (some (.obj [("name", .str "email_finder"), ("arguments", .obj kvs)])) t)
        = []
      ∧ ∃ m, Main.observed (Main.call_tool apiKey
          (some (.obj [("name", .str "email_finder"), ("arguments", .obj kvs)])) t)
          = .response [] 500 (.obj [("error", .str m)])) := by
  have hbody : Main.call_tool apiKey
      (some (.obj [("name", .str "email_finder"), ("arguments", .obj kvs)])) t
      = Main.dispatch apiKey (some (.str "email_finder")) (.obj kvs) t := rfl
  constructor
  · intro hall d hd
    have hf : (kvs.map Prod.fst).find?
        (fun k => !(Main.findEmailAllowedKeys.contains k)) = none := by
      refine List.find?_eq_none.mpr ?_
      intro x hx
      simp only [List.all_eq_true] at hall
      have hm : x ∈ Main.findEmailAllowedKeys := by simpa using hall x hx
      simp [hm]
    rw [hbody]
    simp only [Main.dispatch, hf, hd, if_pos]
    unfold Main.finishTool
    split <;> rfl
  · intro hd
    rw [hbody]
    cases hf : (kvs.map Prod.fst).find?
        (fun k => !(Main.findEmailAllowedKeys.contains k)) with
    | some k =>
      simp only [Main.dispatch, hf, if_pos]
      exact ⟨rfl, _, rfl⟩
    | none =>
      simp only [Main.dispatch, hf, hd, if_pos]
      exact ⟨rfl, _, rfl⟩

/-- Witness for C2 as amended: schema-invalid arguments holding only a
domain still produce exactly one outbound call, and an empty arguments
mapping produces none. -/
theorem claim2_amended_witness :
    (Main.callsOf (Main.call_tool "key"
      (some (.obj [("name", .str "email_finder"),
        ("arguments", .obj [("domain", .str "acme.com")])]))
      (.clientError "down"))).length = 1
  ∧ Main.callsOf (Main.call_tool "key"
      (some (.obj [("name", .str "email_finder"), ("arguments", .obj [])]))
      (.clientError "down")) = [] :=
  ⟨(claim2_amended "key" [("domain", .str "acme.com")] (.clientError "down")).1
      rfl (.str "acme.com") rfl,
   ((claim2_amended "key" [] (.clientError "down")).2 rfl).1⟩

/-- Witness for C7: the unknown name "nonexistent_tool" and a concrete
verification round trip. -/
theorem claim7_dispatch_by_name_witness :
    Main.call_tool "key" (some (.obj [("name", .str "nonexistent_tool")]))
        (.clientError "down") =
      .response [] 404 (.obj [("error", .str "Unknown tool: nonexistent_tool")]) :=
  (claim7_dispatch_by_name "key").1 [("name", .str "nonexistent_tool")]
    "nonexistent_tool" (.clientError "down") rfl (by decide)
